import Mathlib

/-!
Verification of the godagent repository against its specification.

Part 1 models the static-analysis engine (the "core" of the spec). Its
source is not present under src/, so the data model, the five pattern
checks and the orchestrator are modelled from the specification text
(sections 3, 4 and 8); each such definition carries a doc comment
starting with "Modelled from the spec:".

Part 2 embeds the embedding/search HTTP service from
src/embedding-api/api_embedder.py. Side effects are made explicit:
the ChromaDB collection is a list of recorded add-calls threaded
through the handler, UUID generation and model encoding are passed in
as function parameters, and an HTTP error response is an Except error.
-/

/- ### Part 1: the analysis core, modelled from the spec -/

/-- Modelled from the spec: severity taxonomy of the Issue model (section 3). -/
inductive Severity where
  | critical
  | warning
  | info
deriving DecidableEq

/-- Modelled from the spec: one finding (section 3, "Issue"). -/
structure Issue where
  severity : Severity
  line : Nat
  col : Nat
  kind : String
  message : String
  suggestion : String
deriving DecidableEq

/-- Modelled from the spec: aggregate result over one source text (section 3). -/
structure AnalysisResult where
  is_buggy : Bool
  issues : List Issue
  contradictions : List String
  warnings : List String
  summary : String
deriving DecidableEq

/-- Modelled from the spec: the syntax-error signal of the Syntax Tree
Provider (section 4.1), carrying a line number and a message. -/
structure SyntaxFailure where
  line : Nat
  message : String

/-- Modelled from the spec: expression kinds the checks inspect, as a closed
set of tagged variants (design note in section 9). -/
inductive Expr where
  | noneLit
  | emptyList
  | emptyDict
  | strLit (s : String)
  | call (receiver : Option String) (method : String) (args : List Expr)
  | otherExpr (text : String)

/-- Modelled from the spec: statement kinds the checks inspect, as a closed
set of tagged variants (design note in section 9). A conditional records
its test's source text and whether the test is a comparison expression. -/
inductive Stmt where
  | ret (value : Option Expr)
  | exprStmt (line : Nat) (col : Nat) (e : Expr)
  | raiseStmt
  | ifStmt (testText : String) (testIsCompare : Bool) (body : List Stmt)
  | augAssignMetricsIncr
  | passStmt

/-- Modelled from the spec: an exception handler; `caughtType = none` is a
bare clause, otherwise the caught type's name is recorded (glossary:
"Handler", "Bare catch", "Generic catch"). -/
structure Handler where
  caughtType : Option String
  line : Nat
  col : Nat
  body : List Stmt

/-- Modelled from the spec: a top-level item of a parsed tree, either a plain
statement or a try block with its handlers. -/
inductive TopItem where
  | plain (s : Stmt)
  | tryBlock (body : List Stmt) (handlers : List Handler)

/-- Modelled from the spec: the structured tree produced by the Syntax Tree
Provider (section 4.1). -/
abbrev SynTree := List TopItem

/- Character-level helpers used for the keyword and phrase matching; these
stand in for lowercasing, trimming and substring search on source text. -/

def lowerChars (s : String) : List Char := s.toList.map Char.toLower

def isPrefixList : List Char → List Char → Bool
  | [], _ => true
  | _ :: _, [] => false
  | a :: as, b :: bs => a == b && isPrefixList as bs

def containsChars (needle : List Char) : List Char → Bool
  | [] => needle.isEmpty
  | c :: rest => isPrefixList needle (c :: rest) || containsChars needle rest

def isSpaceChar (c : Char) : Bool := c == ' ' || c == '\t' || c == '\n' || c == '\r'

def trimChars (cs : List Char) : List Char :=
  ((cs.dropWhile isSpaceChar).reverse.dropWhile isSpaceChar).reverse

/- Generic containment traversal over statements, recursing into the bodies
of conditionals (design note in section 9: a single generic "contains a
statement matching predicate P" traversal reused by all checks). -/

mutual

def stmtContains (p : Stmt → Bool) : Stmt → Bool
  | .ifStmt tt c body => p (.ifStmt tt c body) || stmtsContain p body
  | s => p s

def stmtsContain (p : Stmt → Bool) : List Stmt → Bool
  | [] => false
  | s :: rest => stmtContains p s || stmtsContain p rest

end

def isRaise : Stmt → Bool
  | .raiseStmt => true
  | _ => false

def isReturn : Stmt → Bool
  | .ret _ => true
  | _ => false

/-- Modelled from the spec: a "trivial empty-result" statement — returning no
value, an empty list/mapping, or a literal none (section 4.3 (a)). -/
def isTrivialEmptyReturn : Stmt → Bool
  | .ret none => true
  | .ret (some .noneLit) => true
  | .ret (some .emptyList) => true
  | .ret (some .emptyDict) => true
  | _ => false

/-- Modelled from the spec: method names recognized as logging (section 4.3 (b)). -/
def logMethods : List String := ["error", "warning", "info", "debug", "critical"]

/-- Modelled from the spec: a call recognizable as a logging call — a method
named error/warning/info/debug/critical on any receiver, or a bare
print-style call (section 4.3 (b)). -/
def isLoggingExpr : Expr → Bool
  | .call (some _) m _ => logMethods.contains m
  | .call none m _ => m == "print"
  | _ => false

def isLoggingStmt : Stmt → Bool
  | .exprStmt _ _ e => isLoggingExpr e
  | _ => false

def hasTrivialEmptyReturn (body : List Stmt) : Bool := stmtsContain isTrivialEmptyReturn body

def hasLoggingCall (body : List Stmt) : Bool := stmtsContain isLoggingStmt body

def isIfWithRaise : Stmt → Bool
  | .ifStmt _ _ b => stmtsContain isRaise b
  | _ => false

def isCompareIf : Stmt → Bool
  | .ifStmt _ true _ => true
  | _ => false

def isAugMetrics : Stmt → Bool
  | .augAssignMetricsIncr => true
  | _ => false

/-- Modelled from the spec: a handler whose caught type is bare or the most
generic built-in exception type (sections 4.3 and glossary). -/
def isBareOrGeneric (h : Handler) : Bool :=
  match h.caughtType with
  | none => true
  | some ty => ty == "Exception"

/-- Modelled from the spec: the handlers of a tree in pre-order. -/
def treeHandlers (t : SynTree) : List Handler :=
  t.flatMap fun item =>
    match item with
    | .plain _ => []
    | .tryBlock _ hs => hs

/-- Modelled from the spec: SilentFailureCheck on one handler (section 4.3). -/
def silentFailureHandler (h : Handler) : List Issue :=
  if isBareOrGeneric h && hasTrivialEmptyReturn h.body && !hasLoggingCall h.body then
    [{ severity := .critical, line := h.line, col := h.col, kind := "silent_failure",
       message := "Exception caught but returns empty value without logging",
       suggestion := "Log the caught exception before returning an empty value" }]
  else []

def silentFailureCheck (t : SynTree) : List Issue :=
  (treeHandlers t).flatMap silentFailureHandler

/-- Modelled from the spec: BroadExceptionCheck on one handler (section 4.4). -/
def broadExceptionHandler (h : Handler) : List Issue :=
  match h.caughtType with
  | none =>
    [{ severity := .warning, line := h.line, col := h.col, kind := "bare_except",
       message := "Bare except catches everything including non-recoverable control signals",
       suggestion := "Name the specific exception types to catch" }]
  | some ty =>
    if ty == "Exception" then
      if h.body.any isRaise || stmtsContain isIfWithRaise h.body || stmtsContain isCompareIf h.body then
        []
      else
        [{ severity := .warning, line := h.line, col := h.col, kind := "broad_exception",
           message := "Broad Exception catch without re-raising or specific handling",
           suggestion := "Re-raise the exception or branch on error specifics" }]
    else []

def broadExceptionCheck (t : SynTree) : List Issue :=
  (treeHandlers t).flatMap broadExceptionHandler

/-- Modelled from the spec: the fixed vocabulary of critical-failure keywords
(section 4.5). -/
def criticalKeywords : List String := ["cuda", "gpu", "oom", "memory", "fatal"]

/-- Modelled from the spec: whether a conditional's test text contains one of
the critical keywords, matched case-insensitively (section 4.5). -/
def testHasCriticalKeyword (testText : String) : Bool :=
  criticalKeywords.any fun k => containsChars k.toList (lowerChars testText)

/-- Modelled from the spec: a conditional whose test references a critical
keyword and whose body returns a value but contains no re-raise (section 4.5). -/
def isSwallowedCriticalIf : Stmt → Bool
  | .ifStmt tt _ b =>
      testHasCriticalKeyword tt && stmtsContain isReturn b && !stmtsContain isRaise b
  | _ => false

/-- Modelled from the spec: ErrorPropagationCheck on one handler — the bad
shape is sought among the handler's top-level conditionals (section 4.5). -/
def errorPropagationHandler (h : Handler) : List Issue :=
  if h.body.any isSwallowedCriticalIf then
    [{ severity := .critical, line := h.line, col := h.col,
       kind := "critical_error_not_propagated",
       message := "Critical error detected in conditional but swallowed instead of re-raised",
       suggestion := "Re-raise the exception when a critical failure is detected" }]
  else []

def errorPropagationCheck (t : SynTree) : List Issue :=
  (treeHandlers t).flatMap errorPropagationHandler

/-- Modelled from the spec: MissingMetricsCheck on one handler (section 4.6). -/
def missingMetricsHandler (h : Handler) : List Issue :=
  if hasLoggingCall h.body && !stmtsContain isAugMetrics h.body then
    [{ severity := .info, line := h.line, col := h.col, kind := "missing_metrics",
       message := "Handler logs the error but records no metrics",
       suggestion := "Increment a metrics counter when handling the error" }]
  else []

def missingMetricsCheck (t : SynTree) : List Issue :=
  (treeHandlers t).flatMap missingMetricsHandler

/-- Modelled from the spec: the fixed set of exact-match ambiguous phrases
(section 4.7), compared against the lowered, trimmed literal. -/
def ambiguousPhrases : List (List Char) :=
  ["error".toList, "failed".toList, "exception".toList, "something went wrong".toList]

def ambiguousLogMethods : List String := ["error", "warning", "critical"]

/-- Modelled from the spec: AmbiguousMessageCheck on one expression — a call
to a logging method error/warning/critical whose first argument is a literal
string matching an ambiguous phrase (section 4.7). -/
def ambiguousIssuesOfExpr (line col : Nat) : Expr → List Issue
  | .call (some _) m (Expr.strLit s :: _) =>
      if ambiguousLogMethods.contains m &&
         ambiguousPhrases.contains (trimChars (lowerChars s)) then
        [{ severity := .info, line := line, col := col, kind := "ambiguous_error",
           message := "Log message is a low-information generic phrase",
           suggestion := "State what happened, why it matters, and how to fix it" }]
      else []
  | _ => []

mutual

def stmtAmbiguous : Stmt → List Issue
  | .exprStmt line col e => ambiguousIssuesOfExpr line col e
  | .ifStmt _ _ b => stmtsAmbiguous b
  | _ => []

def stmtsAmbiguous : List Stmt → List Issue
  | [] => []
  | s :: rest => stmtAmbiguous s ++ stmtsAmbiguous rest

end

def ambiguousMessageCheck (t : SynTree) : List Issue :=
  t.flatMap fun item =>
    match item with
    | .plain s => stmtAmbiguous s
    | .tryBlock body hs => stmtsAmbiguous body ++ hs.flatMap fun h => stmtsAmbiguous h.body

/-- Modelled from the spec: the orchestrator runs every check, in the order
the spec lists them, collecting issues into one ordered list (section 4.2). -/
def runChecks (t : SynTree) : List Issue :=
  silentFailureCheck t ++ broadExceptionCheck t ++ errorPropagationCheck t ++
    missingMetricsCheck t ++ ambiguousMessageCheck t

/-- Modelled from the spec: the number of issues of a given severity. -/
def sevCount (issues : List Issue) (sev : Severity) : Nat :=
  (issues.filter fun i => i.severity == sev).length

/-- Modelled from the spec: the summary grammar of section 4.8 — for each
present severity a counted part, joined with ", "; a fixed message when no
issues exist. -/
def mkSummary (issues : List Issue) : String :=
  if issues.isEmpty then "Code passes all logical consistency checks"
  else
    let c := sevCount issues .critical
    let w := sevCount issues .warning
    let k := sevCount issues .info
    String.intercalate ", "
      ((if c == 0 then [] else [toString c ++ " critical issue(s)"]) ++
       (if w == 0 then [] else [toString w ++ " warning(s)"]) ++
       (if k == 0 then [] else [toString k ++ " info item(s)"]))

/-- Modelled from the spec: aggregation of a list of issues into an
AnalysisResult (sections 3 and 4.8). -/
def aggregate (issues : List Issue) : AnalysisResult :=
  { is_buggy := issues.any fun i => i.severity == Severity.critical
    issues := issues
    contradictions := (issues.filter fun i => i.severity == Severity.critical).map Issue.message
    warnings := (issues.filter fun i => i.severity == Severity.warning).map Issue.message
    summary := mkSummary issues }

/-- Modelled from the spec: the orchestrator `analyze`, taking the outcome of
the Syntax Tree Provider; a parse failure short-circuits to a synthetic buggy
result with the syntax error as sole contradiction (sections 4.1 and 4.2). -/
def analyze : Except SyntaxFailure SynTree → AnalysisResult
  | .error f =>
    { is_buggy := true, issues := [], contradictions := [f.message], warnings := [],
      summary := "Syntax error at line " ++ toString f.line }
  | .ok t => aggregate (runChecks t)

/- ### Part 2: the embedding/search HTTP service (src/embedding-api/api_embedder.py) -/

/-- A metadata entry, modelling a Python dict; Python truthiness of a dict is
non-emptiness. -/
abbrev Metadata := List (String × String)

/-- Request schema of the /embed endpoint (class EmbedRequest). -/
structure EmbedRequest where
  texts : List String
  metadata : Option (List Metadata) := none
deriving DecidableEq

/-- Request schema of the /search endpoint (class SearchRequest). -/
structure SearchRequest where
  query : String
  n_results : Nat := 5
deriving DecidableEq

/-- One recorded call to `collection.add`, with the keyword arguments it was
given; `metadatas = none` means the key was not passed. -/
structure AddCall where
  documents : List String
  embeddings : List (List Int)
  ids : List String
  metadatas : Option (List Metadata)
deriving DecidableEq

/-- An HTTPException raised by a handler. -/
structure HTTPErr where
  status_code : Nat
  detail : String
deriving DecidableEq

/-- Successful response body of /embed. -/
structure EmbedResponse where
  message : String
  ids : List String
  dims : Nat
  embeddings : List (List Int)
deriving DecidableEq

/-- The guard `request.metadata and all(m for m in request.metadata)` on line
78 of api_embedder.py: the metadata list must be present and truthy (non-empty)
and every entry truthy (a non-empty dict). -/
def metadataAccepted : Option (List Metadata) → Bool
  | none => false
  | some l => !l.isEmpty && l.all fun m => !m.isEmpty

/-- The /embed handler `embed_and_store` (api_embedder.py lines 59-90). The
encoder and the UUID generator are passed in as functions (`idGen i` is the
i-th freshly generated UUID, matching the list comprehension on line 70); the
collection state is `none` when the ChromaDB connection failed, otherwise the
list of add-calls recorded so far. Returns the HTTP outcome and the resulting
collection state. The `embeddings[0]` access on line 86 happens after
`collection.add`, so an empty encoding batch raises the IndexError (converted
to a 500 by the except clause on lines 89-90) only after the data is stored. -/
def embed_and_store (encode : List String → List (List Int)) (idGen : Nat → String)
    (collection : Option (List AddCall)) (modelOpt : Option Unit)
    (request : EmbedRequest) : Except HTTPErr EmbedResponse × Option (List AddCall) :=
  match collection with
  | none => (.error ⟨500, "Database connection is down."⟩, none)
  | some st =>
    match modelOpt with
    | none => (.error ⟨500, "Model is not loaded."⟩, some st)
    | some _ =>
      let embeddings := encode request.texts
      let ids := (List.range request.texts.length).map idGen
      let metas := if metadataAccepted request.metadata then request.metadata else none
      let st2 := st ++ [⟨request.texts, embeddings, ids, metas⟩]
      match embeddings with
      | [] => (.error ⟨500, "list index out of range"⟩, some st2)
      | e0 :: _ =>
        let n := ids.length
        (.ok ⟨"Successfully stored " ++ toString n ++ " items", ids, e0.length, embeddings⟩,
         some st2)

/-- The /search handler `search` (api_embedder.py lines 92-115). The query
encoder and the collection query are passed in as functions; the collection
state is read, never written. -/
def searchEndpoint (encodeQuery : String → List Int)
    (queryFn : List AddCall → List Int → Nat → List String)
    (collection : Option (List AddCall)) (modelOpt : Option Unit)
    (request : SearchRequest) : Except HTTPErr (List String) :=
  match collection with
  | none => .error ⟨500, "Database connection is down."⟩
  | some st =>
    match modelOpt with
    | none => .error ⟨500, "Model is not loaded."⟩
    | some _ => .ok (queryFn st (encodeQuery request.query) request.n_results)

/- ### Concrete scenario inputs from section 8 of the spec -/

/-- Modelled from the spec: Scenario A of section 8, the tree of
`try: return search() except Exception: return []`. -/
def scenarioA : SynTree :=
  [TopItem.tryBlock [Stmt.ret (some (Expr.call none "search" []))]
    [{ caughtType := some "Exception", line := 2, col := 0,
       body := [Stmt.ret (some Expr.emptyList)] }]]

/-- A handler with a bare except clause and no other findings; its analysis
produces exactly one warning. -/
def scenarioBare : SynTree :=
  [TopItem.tryBlock [Stmt.passStmt]
    [{ caughtType := none, line := 1, col := 0, body := [Stmt.passStmt] }]]

/-- Modelled from the spec: Scenario D of section 8, the handler
`except RuntimeError as e: if 'cuda' in str(e).lower(): return None`. -/
def handlerD : Handler :=
  { caughtType := some "RuntimeError", line := 5, col := 4,
    body := [Stmt.ifStmt "'cuda' in str(e).lower()" false [Stmt.ret (some Expr.noneLit)]] }

/-- Modelled from the spec: the Scenario D handler with `raise` inside the
conditional instead of the return. -/
def handlerDRaise : Handler :=
  { caughtType := some "RuntimeError", line := 5, col := 4,
    body := [Stmt.ifStmt "'cuda' in str(e).lower()" false [Stmt.raiseStmt]] }

/- ### Theorems -/

/-- C1: for every successfully parsed tree, the `is_buggy` field of the
returned AnalysisResult is true if and only if at least one emitted Issue has
severity critical; warning and info issues alone never make it true. -/
theorem C1_is_buggy_iff_critical (t : SynTree) :
    (analyze (.ok t)).is_buggy = true ↔
      ∃ i ∈ (analyze (.ok t)).issues, i.severity = Severity.critical := by
  simp [analyze, aggregate, List.any_eq_true]

/-- C1 witness: the equivalence instantiated at the Scenario A tree. -/
theorem C1_is_buggy_iff_critical_witness :
    (analyze (.ok scenarioA)).is_buggy = true ↔
      ∃ i ∈ (analyze (.ok scenarioA)).issues, i.severity = Severity.critical :=
  C1_is_buggy_iff_critical scenarioA

/-- C2: on a parse failure, `analyze` returns a result with `is_buggy = true`,
an empty issue list, the parser's message as the sole contradiction, and
summary "Syntax error at line <line>"; no pattern check runs. -/
theorem C2_parse_failure_result (line : Nat) (msg : String) :
    analyze (.error ⟨line, msg⟩) =
      { is_buggy := true, issues := [], contradictions := [msg], warnings := [],
        summary := "Syntax error at line " ++ toString line } := rfl

/-- C2 witness: the parse-failure result at line 3 with a concrete message. -/
theorem C2_parse_failure_result_witness :
    analyze (.error ⟨3, "invalid syntax"⟩) =
      { is_buggy := true, issues := [], contradictions := ["invalid syntax"],
        warnings := [], summary := "Syntax error at line " ++ toString (3 : Nat) } :=
  C2_parse_failure_result 3 "invalid syntax"

/-- C3: for every handler whose caught type is bare or the generic built-in
exception type, whose body contains a trivial empty-result return and no
recognizable logging call, SilentFailureCheck emits a critical
`silent_failure` issue at the handler's location; and Scenario A
(`try: return search() except Exception: return []`) yields `is_buggy = true`
with issue kinds including `silent_failure` and `broad_exception`. -/
theorem C3_silent_failure :
    (∀ h : Handler, isBareOrGeneric h = true → hasTrivialEmptyReturn h.body = true →
        hasLoggingCall h.body = false →
        silentFailureHandler h =
          [{ severity := .critical, line := h.line, col := h.col, kind := "silent_failure",
             message := "Exception caught but returns empty value without logging",
             suggestion := "Log the caught exception before returning an empty value" }]) ∧
    (analyze (.ok scenarioA)).is_buggy = true ∧
    ((analyze (.ok scenarioA)).issues.map Issue.kind).contains "silent_failure" = true ∧
    ((analyze (.ok scenarioA)).issues.map Issue.kind).contains "broad_exception" = true := by
  refine ⟨?_, by decide, by decide, by decide⟩
  intro h h1 h2 h3
  simp [silentFailureHandler, h1, h2, h3]

/-- C3 witness: the universal part applied to the Scenario A handler. -/
theorem C3_silent_failure_witness :
    silentFailureHandler
      { caughtType := some "Exception", line := 2, col := 0,
        body := [Stmt.ret (some Expr.emptyList)] } =
      [{ severity := .critical, line := 2, col := 0, kind := "silent_failure",
         message := "Exception caught but returns empty value without logging",
         suggestion := "Log the caught exception before returning an empty value" }] :=
  C3_silent_failure.1
    { caughtType := some "Exception", line := 2, col := 0,
      body := [Stmt.ret (some Expr.emptyList)] }
    (by decide) (by decide) (by decide)

/-- C4: a handler containing a top-level conditional whose test text contains
a critical keyword (case-insensitively) and whose body returns a value without
a re-raise makes ErrorPropagationCheck emit a critical
`critical_error_not_propagated` issue at the handler's location; a re-raise
inside every such conditional branch, or the absence of all keywords,
suppresses the finding. -/
theorem C4_error_propagation :
    (∀ (h : Handler) (tt : String) (c : Bool) (b : List Stmt),
        Stmt.ifStmt tt c b ∈ h.body →
        testHasCriticalKeyword tt = true →
        stmtsContain isReturn b = true →
        stmtsContain isRaise b = false →
        errorPropagationHandler h =
          [{ severity := .critical, line := h.line, col := h.col,
             kind := "critical_error_not_propagated",
             message := "Critical error detected in conditional but swallowed instead of re-raised",
             suggestion := "Re-raise the exception when a critical failure is detected" }]) ∧
    (∀ h : Handler,
        (∀ tt c b, Stmt.ifStmt tt c b ∈ h.body → stmtsContain isRaise b = true) →
        errorPropagationHandler h = []) ∧
    (∀ h : Handler,
        (∀ tt c b, Stmt.ifStmt tt c b ∈ h.body → testHasCriticalKeyword tt = false) →
        errorPropagationHandler h = []) := by
  refine ⟨?_, ?_, ?_⟩
  · intro h tt c b hmem h1 h2 h3
    have hany : h.body.any isSwallowedCriticalIf = true :=
      List.any_eq_true.mpr ⟨_, hmem, by simp [isSwallowedCriticalIf, h1, h2, h3]⟩
    simp [errorPropagationHandler, hany]
  · intro h hall
    have hany : h.body.any isSwallowedCriticalIf = false := by
      simp only [List.any_eq_false]
      intro s hs
      cases s with
      | ret v => simp [isSwallowedCriticalIf]
      | exprStmt l c e => simp [isSwallowedCriticalIf]
      | raiseStmt => simp [isSwallowedCriticalIf]
      | ifStmt tt c b => simp [isSwallowedCriticalIf, hall tt c b hs]
      | augAssignMetricsIncr => simp [isSwallowedCriticalIf]
      | passStmt => simp [isSwallowedCriticalIf]
    simp [errorPropagationHandler, hany]
  · intro h hall
    have hany : h.body.any isSwallowedCriticalIf = false := by
      simp only [List.any_eq_false]
      intro s hs
      cases s with
      | ret v => simp [isSwallowedCriticalIf]
      | exprStmt l c e => simp [isSwallowedCriticalIf]
      | raiseStmt => simp [isSwallowedCriticalIf]
      | ifStmt tt c b => simp [isSwallowedCriticalIf, hall tt c b hs]
      | augAssignMetricsIncr => simp [isSwallowedCriticalIf]
      | passStmt => simp [isSwallowedCriticalIf]
    simp [errorPropagationHandler, hany]

/-- C4 witness: the Scenario D handler triggers the critical finding, and its
variant with `raise` inside the conditional is suppressed. -/
theorem C4_error_propagation_witness :
    errorPropagationHandler handlerD =
      [{ severity := .critical, line := 5, col := 4,
         kind := "critical_error_not_propagated",
         message := "Critical error detected in conditional but swallowed instead of re-raised",
         suggestion := "Re-raise the exception when a critical failure is detected" }] ∧
    errorPropagationHandler handlerDRaise = [] := by
  constructor
  · exact C4_error_propagation.1 handlerD "'cuda' in str(e).lower()" false
      [Stmt.ret (some Expr.noneLit)] (by simp [handlerD]) (by decide) (by decide) (by decide)
  · refine C4_error_propagation.2.1 handlerDRaise ?_
    intro tt c b hmem
    simp [handlerDRaise] at hmem
    obtain ⟨h1, h2, h3⟩ := hmem
    subst h3
    decide

/-- C5 counterexample: the claim quantifies over every AnalysisResult, but a
parse-failure result has an empty issue list while its summary is
"Syntax error at line 3", not the fixed no-issues text. -/
theorem C5_counterexample :
    (analyze (.error ⟨3, "invalid syntax"⟩)).issues = [] ∧
    (analyze (.error ⟨3, "invalid syntax"⟩)).summary ≠
      "Code passes all logical consistency checks" :=
  ⟨rfl, by decide⟩

/-- C5 (amended to results of successfully parsed input): the summary
enumerates, for each severity present among the issues, the exact count in
the grammar "<count> critical issue(s)" / "<count> warning(s)" /
"<count> info item(s)" joined with ", ", and when the issue list is empty the
summary is exactly "Code passes all logical consistency checks". -/
theorem C5_summary_grammar (t : SynTree) :
    ((analyze (.ok t)).issues = [] →
      (analyze (.ok t)).summary = "Code passes all logical consistency checks") ∧
    ((analyze (.ok t)).issues ≠ [] →
      (analyze (.ok t)).summary =
        String.intercalate ", "
          ((if sevCount (analyze (.ok t)).issues .critical == 0 then []
            else [toString (sevCount (analyze (.ok t)).issues .critical) ++
              " critical issue(s)"]) ++
           (if sevCount (analyze (.ok t)).issues .warning == 0 then []
            else [toString (sevCount (analyze (.ok t)).issues .warning) ++
              " warning(s)"]) ++
           (if sevCount (analyze (.ok t)).issues .info == 0 then []
            else [toString (sevCount (analyze (.ok t)).issues .info) ++
              " info item(s)"]))) := by
  have hiss : (analyze (.ok t)).issues = runChecks t := rfl
  have hsum : (analyze (.ok t)).summary = mkSummary (runChecks t) := rfl
  constructor
  · intro hempty
    rw [hiss] at hempty
    rw [hsum, mkSummary, hempty]
    rfl
  · intro hne
    rw [hiss] at hne
    rw [hsum, hiss, mkSummary, if_neg (by simpa [List.isEmpty_iff] using hne)]

/-- C5 witness: the empty tree has no issues and the fixed summary; the
bare-handler tree has a nonempty issue list and the counted summary. -/
theorem C5_summary_grammar_witness :
    (analyze (.ok ([] : SynTree))).summary = "Code passes all logical consistency checks" ∧
    (analyze (.ok scenarioBare)).summary =
      String.intercalate ", "
        ((if sevCount (analyze (.ok scenarioBare)).issues .critical == 0 then []
          else [toString (sevCount (analyze (.ok scenarioBare)).issues .critical) ++
            " critical issue(s)"]) ++
         (if sevCount (analyze (.ok scenarioBare)).issues .warning == 0 then []
          else [toString (sevCount (analyze (.ok scenarioBare)).issues .warning) ++
            " warning(s)"]) ++
         (if sevCount (analyze (.ok scenarioBare)).issues .info == 0 then []
          else [toString (sevCount (analyze (.ok scenarioBare)).issues .info) ++
            " info item(s)"])) :=
  ⟨(C5_summary_grammar []).1 rfl, (C5_summary_grammar scenarioBare).2 (by decide)⟩

/-- C7: analyzing the same parse outcome twice yields identical results, and
the issue list is deterministically ordered as the concatenation of the five
checks' findings in check-execution order (each check lists its findings in
pre-order over the tree's handlers). -/
theorem C7_deterministic :
    (∀ pr : Except SyntaxFailure SynTree, analyze pr = analyze pr) ∧
    (∀ t : SynTree, (analyze (.ok t)).issues =
      silentFailureCheck t ++ broadExceptionCheck t ++ errorPropagationCheck t ++
        missingMetricsCheck t ++ ambiguousMessageCheck t) :=
  ⟨fun _ => rfl, fun _ => rfl⟩

/-- C8: when the ChromaDB collection is unavailable or the model is not
loaded, both the /embed and /search handlers raise an HTTP 500 error, the
collection is checked first (its message wins when both are down), and no
data is written to the collection. -/
theorem C8_unavailable_returns_500 (encode : List String → List (List Int))
    (idGen : Nat → String) (encodeQuery : String → List Int)
    (queryFn : List AddCall → List Int → Nat → List String)
    (collection : Option (List AddCall)) (modelOpt : Option Unit)
    (ereq : EmbedRequest) (sreq : SearchRequest)
    (hdown : collection = none ∨ modelOpt = none) :
    (∃ d, (embed_and_store encode idGen collection modelOpt ereq).1 = .error ⟨500, d⟩) ∧
    (embed_and_store encode idGen collection modelOpt ereq).2 = collection ∧
    (∃ d, searchEndpoint encodeQuery queryFn collection modelOpt sreq = .error ⟨500, d⟩) ∧
    (collection = none →
      (embed_and_store encode idGen collection modelOpt ereq).1 =
        .error ⟨500, "Database connection is down."⟩ ∧
      searchEndpoint encodeQuery queryFn collection modelOpt sreq =
        .error ⟨500, "Database connection is down."⟩) := by
  cases collection with
  | none => exact ⟨⟨_, rfl⟩, rfl, ⟨_, rfl⟩, fun _ => ⟨rfl, rfl⟩⟩
  | some st =>
    cases modelOpt with
    | none => exact ⟨⟨_, rfl⟩, rfl, ⟨_, rfl⟩, fun h => Option.noConfusion h⟩
    | some u =>
      rcases hdown with h | h
      · exact Option.noConfusion h
      · exact Option.noConfusion h

/-- C8 witness: both endpoints instantiated with a down collection. -/
theorem C8_unavailable_returns_500_witness :
    (∃ d, (embed_and_store (fun ts => ts.map fun _ => [0]) (fun i => toString i)
      none (some ()) ⟨["a"], none⟩).1 = .error ⟨500, d⟩) ∧
    (embed_and_store (fun ts => ts.map fun _ => [0]) (fun i => toString i)
      none (some ()) ⟨["a"], none⟩).2 = none ∧
    (∃ d, searchEndpoint (fun _ => []) (fun _ _ _ => []) none (some ()) ⟨"q", 5⟩ =
      .error ⟨500, d⟩) ∧
    ((none : Option (List AddCall)) = none →
      (embed_and_store (fun ts => ts.map fun _ => [0]) (fun i => toString i)
        none (some ()) ⟨["a"], none⟩).1 = .error ⟨500, "Database connection is down."⟩ ∧
      searchEndpoint (fun _ => []) (fun _ _ _ => []) none (some ()) ⟨"q", 5⟩ =
        .error ⟨500, "Database connection is down."⟩) :=
  C8_unavailable_returns_500 (fun ts => ts.map fun _ => [0]) (fun i => toString i)
    (fun _ => []) (fun _ _ _ => []) none (some ()) ⟨["a"], none⟩ ⟨"q", 5⟩ (Or.inl rfl)

/-- C9: every successful /embed response carries exactly one generated id per
input text and the message "Successfully stored <N> items" where N is the
number of input texts. -/
theorem C9_embed_success_shape (encode : List String → List (List Int))
    (idGen : Nat → String) (collection : Option (List AddCall)) (modelOpt : Option Unit)
    (req : EmbedRequest) (resp : EmbedResponse) (st2 : Option (List AddCall))
    (hok : embed_and_store encode idGen collection modelOpt req = (.ok resp, st2)) :
    resp.ids.length = req.texts.length ∧
    resp.message = "Successfully stored " ++ toString req.texts.length ++ " items" := by
  cases collection with
  | none => simp [embed_and_store] at hok
  | some st =>
    cases modelOpt with
    | none => simp [embed_and_store] at hok
    | some u =>
      rcases hE : encode req.texts with _ | ⟨e0, es⟩
      · simp [embed_and_store, hE] at hok
      · simp [embed_and_store, hE] at hok
        obtain ⟨h1, h2⟩ := hok
        subst h1
        simp

/-- C9 witness: a concrete successful call with one text. -/
theorem C9_embed_success_shape_witness :
    (⟨"Successfully stored " ++ toString (1 : Nat) ++ " items", ["0"], 1, [[7]]⟩ :
      EmbedResponse).ids.length = (["hello"] : List String).length ∧
    (⟨"Successfully stored " ++ toString (1 : Nat) ++ " items", ["0"], 1, [[7]]⟩ :
      EmbedResponse).message =
      "Successfully stored " ++ toString (["hello"] : List String).length ++ " items" :=
  C9_embed_success_shape (fun ts => ts.map fun _ => [7]) (fun i => toString i)
    (some []) (some ()) ⟨["hello"], none⟩
    ⟨"Successfully stored " ++ toString (1 : Nat) ++ " items", ["0"], 1, [[7]]⟩
    (some [⟨["hello"], [[7]], ["0"], none⟩]) rfl

/-- C10: when the collection and model are up, /embed records exactly one add
call holding the request's documents and their embeddings; the request's
metadata is passed through only when it is present and every entry is truthy,
and an absent metadata list or any falsy entry makes the handler drop all
metadata while still storing documents and embeddings. -/
theorem C10_metadata_gating (encode : List String → List (List Int))
    (idGen : Nat → String) (st : List AddCall) (req : EmbedRequest) :
    ∃ c : AddCall,
      (embed_and_store encode idGen (some st) (some ()) req).2 = some (st ++ [c]) ∧
      c.documents = req.texts ∧
      c.embeddings = encode req.texts ∧
      (∀ l, c.metadatas = some l →
        req.metadata = some l ∧ l ≠ [] ∧ ∀ m ∈ l, m ≠ []) ∧
      ((req.metadata = none ∨ ∃ l, req.metadata = some l ∧ ∃ m ∈ l, m = ([] : Metadata)) →
        c.metadatas = none) := by
  refine ⟨⟨req.texts, encode req.texts, (List.range req.texts.length).map idGen,
    if metadataAccepted req.metadata then req.metadata else none⟩, ?_, rfl, rfl, ?_, ?_⟩
  · rcases hE : encode req.texts with _ | ⟨e0, es⟩ <;> simp [embed_and_store, hE]
  · intro l hl
    by_cases hacc : metadataAccepted req.metadata = true
    · simp only [AddCall.metadatas, hacc, if_true] at hl
      cases hmd : req.metadata with
      | none => rw [hmd] at hl; exact Option.noConfusion hl
      | some l0 =>
        rw [hmd] at hl
        obtain rfl : l0 = l := Option.some.injEq _ _ ▸ hl
        rw [hmd] at hacc
        simp [metadataAccepted, List.isEmpty_iff, List.all_eq_true] at hacc
        obtain ⟨hne, hall⟩ := hacc
        exact ⟨rfl, by simpa [List.isEmpty_iff] using hne,
          fun m hm => by simpa [List.isEmpty_iff] using hall m hm⟩
    · simp only [AddCall.metadatas, hacc, if_false] at hl
      exact Option.noConfusion hl
  · intro hbad
    by_cases hacc : metadataAccepted req.metadata = true
    · exfalso
      rcases hbad with hnone | ⟨l, hml, m, hm, hme⟩
      · rw [hnone] at hacc
        simp [metadataAccepted] at hacc
      · rw [hml] at hacc
        simp [metadataAccepted, List.all_eq_true] at hacc
        obtain ⟨hne, hall⟩ := hacc
        have := hall m hm
        rw [hme] at this
        simp at this
    · simp [AddCall.metadatas, hacc]

/-- C10 witness: a concrete call with one text and one truthy metadata entry. -/
theorem C10_metadata_gating_witness :
    ∃ c : AddCall,
      (embed_and_store (fun ts => ts.map fun _ => [7]) (fun i => toString i)
        (some []) (some ()) ⟨["a"], some [[("k", "v")]]⟩).2 = some ([] ++ [c]) ∧
      c.documents = (⟨["a"], some [[("k", "v")]]⟩ : EmbedRequest).texts ∧
      c.embeddings = (fun (ts : List String) => ts.map fun _ => ([7] : List Int)) ["a"] ∧
      (∀ l, c.metadatas = some l →
        (⟨["a"], some [[("k", "v")]]⟩ : EmbedRequest).metadata = some l ∧ l ≠ [] ∧
          ∀ m ∈ l, m ≠ []) ∧
      (((⟨["a"], some [[("k", "v")]]⟩ : EmbedRequest).metadata = none ∨
        ∃ l, (⟨["a"], some [[("k", "v")]]⟩ : EmbedRequest).metadata = some l ∧
          ∃ m ∈ l, m = ([] : Metadata)) →
        c.metadatas = none) :=
  C10_metadata_gating (fun ts => ts.map fun _ => [7]) (fun i => toString i) []
    ⟨["a"], some [[("k", "v")]]⟩
